import Mathlib

/-!
Verification development for `media_toolkit.py` (repository `media-toolkit`).

The Python source is shallowly embedded below.  External effects (the
`yt_dlp` library, `subprocess.run` on ffmpeg, `pypandoc`, `PIL` image I/O)
are modelled by explicit "world" records carrying the outcome each external
call would produce; a raised Python exception is an `Except.error` carrying
the exception's string rendering, and `try/except` blocks are translated as
explicit matches on those `Except` values.  Qt signal emission
(`Emitter.log` / `Emitter.progress`) is modelled as an ordered event list;
an absent emitter (`emitter = None`) suppresses emission.
-/

namespace MediaToolkit

/-- String rendering of a raised Python exception (what `str(e)` yields). -/
structure PyErr where
  msg : String
deriving DecidableEq

instance {e a : Type} [DecidableEq e] [DecidableEq a] : DecidableEq (Except e a) := fun x y =>
  match x, y with
  | Except.error u, Except.error v =>
    if h : u = v then isTrue (congrArg Except.error h)
    else isFalse (fun he => h (Except.error.inj he))
  | Except.error _, Except.ok _ => isFalse (fun he => Except.noConfusion he)
  | Except.ok _, Except.error _ => isFalse (fun he => Except.noConfusion he)
  | Except.ok u, Except.ok v =>
    if h : u = v then isTrue (congrArg Except.ok h)
    else isFalse (fun he => h (Except.ok.inj he))

/-- One event sent through the `Emitter` Qt object: `Emitter.log` carries a
log line, `Emitter.progress` a percentage (the source only ever emits the
whole numbers 0, 80, 100 and whatever the download hook parses, so percents
are modelled as naturals). -/
inductive Event
  | log (line : String)
  | progress (pct : Nat)
deriving DecidableEq

/-- Emit a batch of events only when an emitter is registered
(`if emitter:` guards in the source). -/
def emitIf (em : Bool) (evs : List Event) : List Event :=
  if em then evs else []

/-! ### Python string/path primitives used by the source -/

/-- Characters of `s` after dropping leading whitespace. -/
def dropLeadingWs : List Char → List Char
  | [] => []
  | c :: cs => if c.isWhitespace then dropLeadingWs cs else c :: cs

/-- Python `str.strip()`: drop leading and trailing whitespace. -/
def pyStrip (s : String) : String :=
  String.mk ((dropLeadingWs ((dropLeadingWs s.data).reverse)).reverse)

/-- Python truthiness-based `a or b` on strings: `b` when `a` is empty. -/
def pyOr (a b : String) : String :=
  if a = ("") then b else a

/-- Python `s.startswith(p)`. -/
def strStartsWith (s p : String) : Bool :=
  p.data.isPrefixOf s.data

/-- Python `s.endswith(p)`. -/
def strEndsWith (s p : String) : Bool :=
  p.data.isSuffixOf s.data

/-- Python `s.lower()` (ASCII case folding, as the format names here are
ASCII). -/
def strToLower (s : String) : String :=
  String.mk (s.data.map Char.toLower)

/-- Whether a path begins with the separator (`b.startswith('/')` test of
`os.path.join`). -/
def startsSlash (s : String) : Bool :=
  s.data.head? = some '/'

/-- Whether a path ends with the separator. -/
def endsSlash (s : String) : Bool :=
  s.data.getLast? = some '/'

/-- POSIX `os.path.join(a, b)` for a single joined component. -/
def pathJoin (a b : String) : String :=
  if startsSlash b = true then b
  else if a = ("") then a ++ b
  else if endsSlash a = true then a ++ b
  else a ++ ("/") ++ b

/-- Characters after the last `'/'` (POSIX `os.path.basename`). -/
def basenameChars (l : List Char) : List Char :=
  l.foldl (fun acc c => if c = '/' then [] else acc ++ [c]) []

/-- POSIX `os.path.basename`. -/
def basename (p : String) : String :=
  String.mk (basenameChars p.data)

/-- Index of the last `'.'` in a character list, if any. -/
def lastDotIdx (l : List Char) : Option Nat :=
  match l.reverse.indexOf? '.' with
  | none => none
  | some j => some (l.length - 1 - j)

/-- Root part of `os.path.splitext` applied to a bare file name (no
directory separators): cut at the last dot unless every character before
that dot is itself a dot (Python keeps names like `.bashrc` whole). -/
def stemChars (name : List Char) : List Char :=
  match lastDotIdx name with
  | none => name
  | some i => if (name.take i).all (fun c => c = '.') then name else name.take i

/-- `os.path.splitext(os.path.basename(p))[0]` — the base name without its
extension, as computed in `MainApp.start_conversion`. -/
def stemOf (p : String) : String :=
  String.mk (stemChars (basenameChars p.data))

/-- Model of `mimetypes.guess_type` restricted to the file extensions this
application deals in (the stdlib table entries for these extensions). -/
def guessMime (path : String) : Option String :=
  if strEndsWith path (".png") then some ("image/png")
  else if strEndsWith path (".jpg") || strEndsWith path (".jpeg") then some ("image/jpeg")
  else if strEndsWith path (".webp") then some ("image/webp")
  else if strEndsWith path (".gif") then some ("image/gif")
  else if strEndsWith path (".ico") then some ("image/vnd.microsoft.icon")
  else if strEndsWith path (".mp4") then some ("video/mp4")
  else if strEndsWith path (".mp3") then some ("audio/mpeg")
  else if strEndsWith path (".wav") then some ("audio/x-wav")
  else if strEndsWith path (".txt") then some ("text/plain")
  else if strEndsWith path (".pdf") then some ("application/pdf")
  else none

/-- Python `mime and mime.startswith(p)` (on an optional mime string). -/
def mimeStartsWith (m : Option String) (p : String) : Bool :=
  match m with
  | none => false
  | some s => strStartsWith s p

/-! ### Settings persistence (`load_settings`, lines 37-55) -/

/-- `DEFAULT_SETTINGS` (line 38): `ffmpeg_path` defaults to the empty
string, `default_output` to `str(Path.home() / "Downloads")`. -/
def DEFAULT_SETTINGS (home : String) : List (String × String) :=
  [("ffmpeg_path", ""), ("default_output", pathJoin home ("Downloads"))]

/-- Dictionary key-membership test (`k in s` / `k not in s`). -/
def hasKey (s : List (String × String)) (k : String) : Bool :=
  s.any (fun p => p.1 = k)

/-- The loop body `if k not in s: s[k] = v` for one default entry. -/
def dictSetDefault (s : List (String × String)) (k v : String) : List (String × String) :=
  if hasKey s k = true then s else s ++ [(k, v)]

/-- The `for k, v in DEFAULT_SETTINGS.items(): if k not in s: s[k] = v`
loop of `load_settings`. -/
def fillDefaults (defaults s : List (String × String)) : List (String × String) :=
  defaults.foldl (fun acc kv => dictSetDefault acc kv.1 kv.2) s

/-- State of `~/.media_toolkit_settings.json`: missing, present but failing
to open/parse as JSON (or parsing to a non-dict, which makes the `s[k] = v`
assignment raise), or parsed to a JSON object with the given entries. -/
inductive SettingsFile
  | absent
  | unparsable
  | parsed (entries : List (String × String))

/-- `load_settings` (lines 43-55). -/
def load_settings (home : String) : SettingsFile → List (String × String)
  | SettingsFile.absent => DEFAULT_SETTINGS home
  | SettingsFile.unparsable => DEFAULT_SETTINGS home
  | SettingsFile.parsed s => fillDefaults (DEFAULT_SETTINGS home) s

/-! ### Conversion backends (`convert_*`, lines 176-229) -/

/-- A pixel of the PIL `RGBA` internal representation. -/
structure RGBAPixel where
  r : Nat
  g : Nat
  b : Nat
  a : Nat
deriving DecidableEq

/-- A pixel of a PIL `RGB` image: structurally carries no alpha channel. -/
structure RGBPixel where
  r : Nat
  g : Nat
  b : Nat
deriving DecidableEq

/-- A PIL image: its mode string, its dimensions (`im.size`) and the RGBA
rendering of its pixel data. -/
structure PILImage where
  mode : String
  width : Nat
  height : Nat
  pixels : List RGBAPixel
deriving DecidableEq

/-- `img.convert("RGBA")` — normalize to mode `RGBA`. -/
def convertRGBA (img : PILImage) : PILImage :=
  { img with mode := "RGBA" }

/-- `background.paste(img, mask=alpha)` onto an opaque white `RGB`
background: per-pixel alpha compositing against white, yielding a pixel
with no alpha component. -/
def pasteOnWhite (p : RGBAPixel) : RGBPixel :=
  { r := (p.r * p.a + 255 * (255 - p.a)) / 255
  , g := (p.g * p.a + 255 * (255 - p.a)) / 255
  , b := (p.b * p.a + 255 * (255 - p.a)) / 255 }

/-- The artifact `convert_image_with_pillow` saves: a multi-resolution
icon container, an alpha-free RGB encoding, or a direct re-encode of the
RGBA data in the named format. -/
inductive ImgArtifact
  | ico (sizes : List (Nat × Nat)) (pixels : List RGBAPixel)
  | rgb (pixels : List RGBPixel)
  | plain (fmt : String) (pixels : List RGBAPixel)
deriving DecidableEq

/-- The `sizes` list hard-coded at line 183. -/
def icoSizes : List (Nat × Nat) :=
  [(16, 16), (32, 32), (48, 48), (64, 64), (128, 128), (256, 256)]

/-- Python `s.upper()` (ASCII, as used on format names). -/
def strUpper (s : String) : String :=
  String.mk (s.data.map Char.toUpper)

/-- The save-handler keys Pillow registers (`Image.SAVE`) for the formats
relevant here: `"JPEG"` is registered but `"JPG"` is not, so
`save(..., format="JPG")` raises `KeyError('JPG')`. -/
def pillowSaveFormats : List String :=
  ["PNG", "JPEG", "ICO", "WEBP", "GIF", "BMP", "TIFF"]

/-- `img.save(outfile, format=key, ...)`: Pillow looks the format name up
in its save registry and raises a `KeyError` — whose string rendering is
the quoted key — when the name is not registered there. -/
def pillowSave (key : String) (art : ImgArtifact) : Except PyErr ImgArtifact :=
  if pillowSaveFormats.contains key = true then Except.ok art
  else Except.error { msg := ("'") ++ key ++ ("'") }

/-- The size filter of Pillow's ICO writer (`IcoImagePlugin._save`):
requested sizes exceeding the source image's dimensions, or 256, are
silently dropped. -/
def icoFilterSizes (width height : Nat) (sizes : List (Nat × Nat)) : List (Nat × Nat) :=
  sizes.filter (fun sz => decide (sz.1 ≤ width ∧ sz.2 ≤ height ∧ sz.1 ≤ 256 ∧ sz.2 ≤ 256))

/-- Whether the saved artifact can show transparency anywhere. -/
def artifactHasTransparency : ImgArtifact → Bool
  | ImgArtifact.ico _ px => px.any (fun p => p.a < 255)
  | ImgArtifact.rgb _ => false
  | ImgArtifact.plain _ px => px.any (fun p => p.a < 255)

/-- `convert_image_with_pillow` (lines 176-194).  `pillowAvail` is whether
`PIL.Image` imported (`Image is None` check); `opened` is the outcome of
`Image.open(infile)` (a malformed input file raises). -/
def convert_image_with_pillow (pillowAvail : Bool) (opened : Except PyErr PILImage)
    (target : String) : Except PyErr ImgArtifact :=
  if pillowAvail = false then
    Except.error { msg := "Pillow is not installed (pip install Pillow)" }
  else
    match opened with
    | Except.error e => Except.error e
    | Except.ok img0 =>
      let img := convertRGBA img0
      let fmt := strToLower target
      if fmt = ("ico") then
        pillowSave ("ICO")
          (ImgArtifact.ico (icoFilterSizes img.width img.height icoSizes) img.pixels)
      else if (fmt = ("jpg") || fmt = ("jpeg")) && (img.mode = ("RGBA") || img.mode = ("LA")) then
        pillowSave (strUpper fmt) (ImgArtifact.rgb (img.pixels.map pasteOnWhite))
      else
        pillowSave (strUpper fmt) (ImgArtifact.plain fmt img.pixels)

/-- Outcomes of the external calls a conversion may make. -/
structure ConvWorld where
  /-- whether `from PIL import Image` succeeded (line 24-27) -/
  pillowAvail : Bool
  /-- whether `import pypandoc` succeeded (line 29-32) -/
  pandocAvail : Bool
  /-- outcome of `Image.open(infile)` plus the subsequent Pillow save -/
  imageOpen : Except PyErr PILImage
  /-- outcome of `pypandoc.convert_file(...)` (line 204) -/
  pandocRun : Except PyErr Unit
  /-- outcome of `subprocess.run([ffmpeg, "-y", "-i", infile, outfile], check=True)` (line 199) -/
  ffmpegRun : Except PyErr Unit

/-- `convert_document_with_pandoc` (lines 201-204). -/
def convert_document_with_pandoc (w : ConvWorld) : Except PyErr Unit :=
  if w.pandocAvail = false then
    Except.error { msg := "pypandoc not installed or pandoc not available" }
  else w.pandocRun

/-- `convert_with_ffmpeg_cmd` (lines 196-199). -/
def convert_with_ffmpeg_cmd (w : ConvWorld) : Except PyErr Unit :=
  w.ffmpegRun

/-- The three backends a conversion can be dispatched to. -/
inductive Adapter
  | pillow
  | pandoc
  | ffmpeg
deriving DecidableEq

/-- The document-target allow-list of line 215. -/
def docTargets : List String :=
  ["pdf", "docx", "txt", "md", "rtf"]

/-- The branch of the `convert_generic` `if/elif/else` chain
(lines 212-222) that a given mime type and target select.  Note that the
image branch tests only the mime type — Pillow's availability is not
consulted — while the document branch requires `pypandoc` to be present. -/
def resolveAdapter (mime : Option String) (target : String) (pandocAvail : Bool) : Adapter :=
  if mimeStartsWith mime ("image") = true then Adapter.pillow
  else if docTargets.contains (strToLower target) && pandocAvail then Adapter.pandoc
  else if mimeStartsWith mime ("video") || mimeStartsWith mime ("audio") then Adapter.ffmpeg
  else Adapter.ffmpeg

/-- The body of `convert_generic`'s `try` block after the log line: run the
selected backend, returning the image artifact when the image backend ran. -/
def convertAttempt (w : ConvWorld) (infile target : String) : Except PyErr (Option ImgArtifact) :=
  match resolveAdapter (guessMime infile) target w.pandocAvail with
  | Adapter.pillow =>
    match convert_image_with_pillow w.pillowAvail w.imageOpen target with
    | Except.ok art => Except.ok (some art)
    | Except.error e => Except.error e
  | Adapter.pandoc =>
    match convert_document_with_pandoc w with
    | Except.ok _ => Except.ok none
    | Except.error e => Except.error e
  | Adapter.ffmpeg =>
    match convert_with_ffmpeg_cmd w with
    | Except.ok _ => Except.ok none
    | Except.error e => Except.error e

/-- `convert_generic` (lines 206-229): returns the result message and the
events emitted, `em` being whether an emitter was supplied.  The whole body
sits in `try/except`, so any backend exception becomes the
`"❌ Conversion error: ..."` return value. -/
def convert_generic (w : ConvWorld) (infile outfile target : String) (em : Bool) :
    String × List Event :=
  let head := emitIf em [Event.log (("Converting ") ++ basename infile ++ (" → ") ++ basename outfile)]
  match convertAttempt w infile target with
  | Except.ok _ =>
    (("✅ Converted to ") ++ target,
     head ++ emitIf em [Event.log (("✅ Converted: ") ++ outfile)])
  | Except.error e =>
    (("❌ Conversion error: ") ++ e.msg,
     head ++ emitIf em [Event.log (("❌ Conversion error: ") ++ e.msg)])

/-- `convert_generic_wrapper` (lines 545-560).  `start_conversion` always
constructs an `Emitter` before scheduling it, so the wrapper is modelled
with an emitter present.  Its own `except` branch is unreachable because
`convert_generic` always returns normally. -/
def convert_generic_wrapper (w : ConvWorld) (infile outfile target : String) :
    String × List Event :=
  let head := [Event.log (("Starting conversion: ") ++ basename infile ++ (" → ") ++ basename outfile),
               Event.progress 0]
  let rv := convert_generic w infile outfile target true
  (rv.1, head ++ rv.2 ++ [Event.progress 80, Event.log rv.1, Event.progress 100])

/-! ### Worker utilities (`run_threaded`, lines 83-94) -/

/-- The body of `run_threaded`'s thread `wrapper` before the `except`
clause: run the target, then hand its result to `on_done` when one was
supplied.  Either step may raise. -/
def run_threaded_body {α : Type} (target : Except PyErr α)
    (onDone : Option (α → Except PyErr Unit)) : Except PyErr Unit :=
  match target with
  | Except.error e => Except.error e
  | Except.ok a =>
    match onDone with
    | none => Except.ok ()
    | some f => f a

/-- `run_threaded`'s `wrapper` as actually executed on the worker thread:
the `except Exception` clause prints and swallows any exception, so the
worker itself always finishes normally. -/
def run_threaded_run {α : Type} (target : Except PyErr α)
    (onDone : Option (α → Except PyErr Unit)) : Except PyErr Unit :=
  match run_threaded_body target onDone with
  | Except.ok _ => Except.ok ()
  | Except.error _ => Except.ok ()

/-! ### yt-dlp helpers (lines 99-171) -/

/-- The `yt-dlp` postprocessor entry built for audio extraction. -/
structure PostProcessor where
  key : String
  preferredcodec : String
  preferredquality : String
deriving DecidableEq

/-- The option dictionary produced by `build_ydl_opts_for_download`.
`ffmpegLocation` is `none` when the setting is empty (the `or None`
followed by the comprehension stripping `None` values at line 159). -/
structure YdlOpts where
  outtmpl : String
  noplaylist : Bool
  nocheckcertificate : Bool
  hasProgressHook : Bool
  cookiefile : Option String
  format : String
  postprocessors : List PostProcessor
  mergeOutputFormat : Option String
  preferFfmpeg : Bool
  ffmpegLocation : Option String
deriving DecidableEq

/-- `build_ydl_opts_for_download` (lines 99-147).  `em` is whether an
emitter was supplied (the progress hook is installed only then);
`ffmpegPathSetting` is `settings.get("ffmpeg_path", "")`. -/
def build_ydl_opts_for_download (outdir fmt : String) (em : Bool)
    (cookiefile : Option String) (ffmpegPathSetting : String) : YdlOpts :=
  { outtmpl := pathJoin outdir ("%(uploader)s - %(title)s.%(ext)s")
  , noplaylist := false
  , nocheckcertificate := true
  , hasProgressHook := em
  , cookiefile := cookiefile
  , format :=
      if fmt = ("mp3") then "bestaudio/best"
      else if fmt = ("mp4") then "bestvideo+bestaudio/best"
      else "best"
  , postprocessors :=
      if fmt = ("mp3") then [{ key := "FFmpegExtractAudio", preferredcodec := "mp3", preferredquality := "192" }]
      else []
  , mergeOutputFormat := if fmt = ("mp4") then some ("mp4") else none
  , preferFfmpeg := fmt = ("mp3")
  , ffmpegLocation := if ffmpegPathSetting = ("") then none else some ffmpegPathSetting }

/-- One callback `yt_dlp` makes to the installed progress hook during
`extract_info`: a `downloading` report (with the parsed percent, the
filename and the raw percent string) or the `finished` report. -/
inductive DlStatus
  | downloading (pct : Nat) (filename : String) (pstr : String)
  | finished
deriving DecidableEq

/-- Events the progress hook `p_hook` (lines 107-120) emits for one
status callback. -/
def hookEvents : DlStatus → List Event
  | DlStatus.downloading pct fn ps =>
    [Event.progress pct, Event.log (("Downloading: ") ++ fn ++ (" ") ++ ps)]
  | DlStatus.finished =>
    [Event.progress 100, Event.log ("Merging/processing...")]

/-- External behaviour of one `yt_dlp` extraction: the hook callbacks it
makes while running, then either the prepared filename or the exception it
raises (network error, missing tool, failed postprocessing, ...). -/
structure FetchWorld where
  statuses : List DlStatus
  outcome : Except PyErr String

/-- `yt_download` (lines 149-171).  `em` is whether an emitter was
supplied; `defaultOutput` is `settings.get("default_output")` and `cwd` is
`os.getcwd()`, consulted by the `or` chain at line 152.  Hook events occur
only when an emitter exists, because the hook is only installed then. -/
def yt_download (fw : FetchWorld) (url outdir fmt : String) (em : Bool)
    (defaultOutput cwd : String) : String × List Event :=
  if pyStrip url = ("") then (("❌ No URL provided"), [])
  else
    let odir := pyOr outdir (pyOr defaultOutput cwd)
    let head := emitIf em [Event.log (("Starting download: ") ++ url ++ (" → ") ++ odir ++ (" as ") ++ fmt),
                           Event.progress 0]
    let hooks := if em then (fw.statuses.map hookEvents).flatten else []
    match fw.outcome with
    | Except.ok fn =>
      (("✅ Download complete: ") ++ url,
       head ++ hooks ++ emitIf em [Event.log (("Saved: ") ++ fn), Event.progress 100])
    | Except.error e =>
      (("❌ Error: ") ++ e.msg,
       head ++ hooks ++ emitIf em [Event.log (("❌ Error: ") ++ e.msg), Event.progress 0])

/-! ### GUI entry points (submission boundary) -/

/-- What `MainApp.start_youtube_download` (lines 341-355) does with the
form contents: either reject synchronously (appending one line to the UI
log, creating no emitter and spawning no worker) or schedule a background
`yt_download` job with the resolved arguments. -/
inductive SubmitOutcome
  | rejected (uiLog : String)
  | scheduled (url out fmt : String) (cookie : Option String)
deriving DecidableEq

/-- Number of worker threads a submission spawns. -/
def jobsSpawned : SubmitOutcome → Nat
  | SubmitOutcome.rejected _ => 0
  | SubmitOutcome.scheduled _ _ _ _ => 1

/-- `MainApp.start_youtube_download` (lines 341-355). -/
def start_youtube_download (urlText fmtSel outText cookieText defaultOutput cwd : String) :
    SubmitOutcome :=
  let url := pyStrip urlText
  let out := pyOr (pyStrip outText) (pyOr defaultOutput cwd)
  let cookie := if pyStrip cookieText = ("") then none else some (pyStrip cookieText)
  if url = ("") then SubmitOutcome.rejected ("❌ Please paste a URL.")
  else SubmitOutcome.scheduled url out fmtSel cookie

/-- The formats offered by the Downloader tab's format box
(`addItems(["mp4","mp3"])`, line 288); the Instagram tab always fetches
with `"mp4"` (line 528). -/
def uiFetchFormats : List String :=
  ["mp4", "mp3"]

/-- The output path computed by `MainApp.start_conversion` (lines 443-445)
once the output folder is resolved: `os.path.join(out_folder,
f"{base}.{target}")` with `base` the input's extension-free base name. -/
def conv_outfile (outFolder infile target : String) : String :=
  pathJoin outFolder (stemOf infile ++ (".") ++ target)

/-! ### Helper lemmas -/

lemma data_append (s t : String) : (s ++ t).data = s.data ++ t.data := by
  cases s; cases t; rfl

lemma slash_not_mem_foldl (l : List Char) :
    ∀ acc : List Char, '/' ∉ acc →
      '/' ∉ l.foldl (fun acc c => if c = '/' then [] else acc ++ [c]) acc := by
  induction l with
  | nil => intro acc h; exact h
  | cons c cs ih =>
    intro acc h
    simp only [List.foldl_cons]
    apply ih
    by_cases hc : c = '/'
    · simp [hc]
    · intro hm
      rw [if_neg hc] at hm
      rcases List.mem_append.mp hm with h1 | h1
      · exact h h1
      · simp only [List.mem_singleton] at h1
        exact hc h1.symm

lemma slash_not_mem_basenameChars (l : List Char) : '/' ∉ basenameChars l :=
  slash_not_mem_foldl l [] (by simp)

lemma mem_of_mem_stemChars {l : List Char} {x : Char} (h : x ∈ stemChars l) : x ∈ l := by
  unfold stemChars at h
  split at h
  · exact h
  · split at h
    · exact h
    · exact List.take_subset _ l h

lemma startsSlash_eq_false {s : String} (h : ¬ s.data.head? = some '/') :
    startsSlash s = false := by
  unfold startsSlash
  exact decide_eq_false h

lemma startsSlash_stem_dot (infile target : String) :
    startsSlash (stemOf infile ++ (".") ++ target) = false := by
  apply startsSlash_eq_false
  have hd : (stemOf infile ++ (".") ++ target).data
      = stemChars (basenameChars infile.data) ++ ('.' :: target.data) := by
    rw [data_append, data_append]
    simp [stemOf, List.append_assoc]
  rw [hd]
  cases hs : stemChars (basenameChars infile.data) with
  | nil => simp
  | cons c cs =>
    have hcmem : c ∈ basenameChars infile.data :=
      mem_of_mem_stemChars (by rw [hs]; exact List.mem_cons_self c cs)
    have hne : c ≠ '/' := fun he => slash_not_mem_basenameChars infile.data (he ▸ hcmem)
    simp [hne]

lemma pathJoin_eq {a b : String} (ha : ¬ a = ("")) (hae : endsSlash a = false)
    (hb : startsSlash b = false) : pathJoin a b = a ++ ("/") ++ b := by
  simp [pathJoin, ha, hae, hb]

lemma hasKey_dictSetDefault_self (s : List (String × String)) (k v : String) :
    hasKey (dictSetDefault s k v) k = true := by
  unfold dictSetDefault
  by_cases h : hasKey s k = true
  · simp [h]
  · rw [if_neg h]
    unfold hasKey
    rw [List.any_append]
    simp

lemma hasKey_dictSetDefault_mono {s : List (String × String)} {k' : String} (k v : String)
    (h : hasKey s k' = true) : hasKey (dictSetDefault s k v) k' = true := by
  unfold dictSetDefault
  by_cases hc : hasKey s k = true
  · simp [hc, h]
  · rw [if_neg hc]
    unfold hasKey at h ⊢
    rw [List.any_append, h, Bool.true_or]

/-! ### Claim theorems -/

/-- C8: for every conversion job the output path is
`<chosen-dir>/<input-base-name>.<target-format>` (for a chosen directory
that is nonempty and not slash-terminated, as produced by the directory
picker), and in particular converting `clip.mp4` to `mp3` into `dir`
yields `dir/clip.mp3`. -/
theorem conversion_output_path (dir infile target : String)
    (h1 : ¬ dir = ("")) (h2 : endsSlash dir = false) :
    conv_outfile dir infile target = dir ++ ("/") ++ (stemOf infile ++ (".") ++ target)
    ∧ conv_outfile ("dir") ("clip.mp4") ("mp3") = ("dir/clip.mp3") := by
  constructor
  · unfold conv_outfile
    exact pathJoin_eq h1 h2 (startsSlash_stem_dot infile target)
  · decide

/-- Witness for C8 at the Scenario B input. -/
theorem conversion_output_path_witness :
    conv_outfile ("dir") ("clip.mp4") ("mp3")
        = ("dir") ++ ("/") ++ (stemOf ("clip.mp4") ++ (".") ++ ("mp3"))
    ∧ conv_outfile ("dir") ("clip.mp4") ("mp3") = ("dir/clip.mp3") :=
  conversion_output_path ("dir") ("clip.mp4") ("mp3") (by decide) (by decide)

/-- C10: `load_settings` always returns a dictionary containing both
`DEFAULT_SETTINGS` keys (`ffmpeg_path` and `default_output`), whether the
settings file is absent, fails to load or parse, or parses but omits some
keys (those are filled from the defaults). -/
theorem load_settings_has_default_keys (home : String) (fs : SettingsFile) :
    hasKey (load_settings home fs) ("ffmpeg_path") = true
    ∧ hasKey (load_settings home fs) ("default_output") = true := by
  cases fs with
  | absent => constructor <;> simp [load_settings, DEFAULT_SETTINGS, hasKey]
  | unparsable => constructor <;> simp [load_settings, DEFAULT_SETTINGS, hasKey]
  | parsed s =>
    have hred : load_settings home (SettingsFile.parsed s)
        = dictSetDefault (dictSetDefault s ("ffmpeg_path") (""))
            ("default_output") (pathJoin home ("Downloads")) := rfl
    rw [hred]
    constructor
    · exact hasKey_dictSetDefault_mono _ _ (hasKey_dictSetDefault_self s _ _)
    · exact hasKey_dictSetDefault_self _ _ _

/-- A world where Pillow and pandoc are importable but the ffmpeg
invocation fails, so a `clip.mp4 → mp3` conversion job attempts only the
audio/video backend and every attempt fails. -/
def ffmpegFailWorld : ConvWorld :=
  { pillowAvail := true
  , pandocAvail := true
  , imageOpen := Except.error { msg := "unused" }
  , pandocRun := Except.ok ()
  , ffmpegRun := Except.error { msg := "ffmpeg exited with code 1" } }

/-- One `yt_dlp` extraction that makes a download callback and then raises
a network error. -/
def netFailWorld : FetchWorld :=
  { statuses := [DlStatus.downloading 37 ("video.mp4") ("37.0%")]
  , outcome := Except.error { msg := "network unreachable" } }

/-- C1 counterexample: converting `clip.mp4` to `mp3` in a world where the
only attempted adapter (ffmpeg) fails yields the failure result message,
yet the job's event stream still contains `Progress(100)`, emitted by
`convert_generic_wrapper` after the failure log line — contradicting the
claim that a run in which every adapter attempt fails emits the failure
LogLine together with `Progress(0)` and not `Progress(100)`. -/
theorem failed_conversion_still_emits_progress100 :
    (convert_generic_wrapper ffmpegFailWorld ("clip.mp4") ("dir/clip.mp3") ("mp3")).1
        = ("❌ Conversion error: ffmpeg exited with code 1")
    ∧ Event.progress 100
        ∈ (convert_generic_wrapper ffmpegFailWorld ("clip.mp4") ("dir/clip.mp3") ("mp3")).2 := by
  decide

/-- C1 (amended): every job run returns exactly one terminal result
message.  A conversion run's event stream always ends with the terminal
LogLine followed by `Progress(100)` — even when every adapter attempt
failed, in which case the failure LogLine carries the last error but is
followed by `Progress(80)`/`Progress(100)`, `Progress(0)` appearing only
at the start of the run.  A fetch run that fails ends its stream with the
failure LogLine carrying the error plus `Progress(0)`, and a successful
fetch ends with the saved-filename LogLine plus `Progress(100)`. -/
theorem job_terminal_events_amended
    (w : ConvWorld) (infile outfile target : String)
    (fw : FetchWorld) (url odir fmt dflt cwd : String) (e : PyErr) (fn : String) :
    (∃ pre, (convert_generic_wrapper w infile outfile target).2
        = pre ++ [Event.log (convert_generic_wrapper w infile outfile target).1,
                  Event.progress 100])
    ∧ (convertAttempt w infile target = Except.error e →
        convert_generic_wrapper w infile outfile target
          = (("❌ Conversion error: ") ++ e.msg,
             [Event.log (("Starting conversion: ") ++ basename infile ++ (" → ") ++ basename outfile),
              Event.progress 0,
              Event.log (("Converting ") ++ basename infile ++ (" → ") ++ basename outfile),
              Event.log (("❌ Conversion error: ") ++ e.msg),
              Event.progress 80,
              Event.log (("❌ Conversion error: ") ++ e.msg),
              Event.progress 100]))
    ∧ (¬ pyStrip url = ("") → fw.outcome = Except.error e →
        (yt_download fw url odir fmt true dflt cwd).1 = ("❌ Error: ") ++ e.msg
        ∧ ∃ pre, (yt_download fw url odir fmt true dflt cwd).2
            = pre ++ [Event.log (("❌ Error: ") ++ e.msg), Event.progress 0])
    ∧ (¬ pyStrip url = ("") → fw.outcome = Except.ok fn →
        (yt_download fw url odir fmt true dflt cwd).1 = ("✅ Download complete: ") ++ url
        ∧ ∃ pre, (yt_download fw url odir fmt true dflt cwd).2
            = pre ++ [Event.log (("Saved: ") ++ fn), Event.progress 100]) := by
  refine ⟨?_, ?_, ?_, ?_⟩
  · refine ⟨[Event.log (("Starting conversion: ") ++ basename infile ++ (" → ") ++ basename outfile),
             Event.progress 0]
        ++ (convert_generic w infile outfile target true).2 ++ [Event.progress 80], ?_⟩
    simp [convert_generic_wrapper]
  · intro h
    simp [convert_generic_wrapper, convert_generic, h, emitIf]
  · intro hu ho
    refine ⟨by simp [yt_download, hu, ho], ?_⟩
    refine ⟨[Event.log (("Starting download: ") ++ url ++ (" → ") ++ pyOr odir (pyOr dflt cwd)
               ++ (" as ") ++ fmt), Event.progress 0]
        ++ (fw.statuses.map hookEvents).flatten, ?_⟩
    simp [yt_download, hu, ho, emitIf]
  · intro hu ho
    refine ⟨by simp [yt_download, hu, ho], ?_⟩
    refine ⟨[Event.log (("Starting download: ") ++ url ++ (" → ") ++ pyOr odir (pyOr dflt cwd)
               ++ (" as ") ++ fmt), Event.progress 0]
        ++ (fw.statuses.map hookEvents).flatten, ?_⟩
    simp [yt_download, hu, ho, emitIf]

/-- Witness for the amended C1: the failing conversion and failing fetch
conclusions at concrete inputs. -/
theorem job_terminal_events_amended_witness :
    (yt_download netFailWorld ("https://example.com/v") ("out") ("mp4") true ("") ("")).1
        = ("❌ Error: ") ++ ("network unreachable")
    ∧ (convert_generic_wrapper ffmpegFailWorld ("clip.mp4") ("dir/clip.mp3") ("mp3")).1
        = ("❌ Conversion error: ") ++ ("ffmpeg exited with code 1") := by
  constructor
  · exact ((job_terminal_events_amended ffmpegFailWorld ("clip.mp4") ("dir/clip.mp3") ("mp3")
      netFailWorld ("https://example.com/v") ("out") ("mp4") ("") ("")
      { msg := "network unreachable" } ("")).2.2.1 (by decide) rfl).1
  · exact congrArg Prod.fst ((job_terminal_events_amended ffmpegFailWorld ("clip.mp4")
      ("dir/clip.mp3") ("mp3") netFailWorld ("https://example.com/v") ("out") ("mp4") ("") ("")
      { msg := "ffmpeg exited with code 1" } ("")).2.1 rfl)

/-- C2: in every world (missing external tools, malformed inputs, network
errors, ...) `convert_generic` and `yt_download` return a plain result
message — the success message or a `"❌ ..."` failure message — rather than
letting an exception escape, and `run_threaded`'s worker wrapper finishes
normally no matter whether its target or the completion callback raised,
so no exception reaches the host process or another job. -/
theorem adapter_errors_contained
    (w : ConvWorld) (infile outfile target : String) (em : Bool)
    (fw : FetchWorld) (url odir fmt dflt cwd : String)
    {α : Type} (t : Except PyErr α) (onDone : Option (α → Except PyErr Unit)) :
    ((convert_generic w infile outfile target em).1 = ("✅ Converted to ") ++ target
      ∨ ∃ m, (convert_generic w infile outfile target em).1 = ("❌ Conversion error: ") ++ m)
    ∧ ((yt_download fw url odir fmt em dflt cwd).1 = ("❌ No URL provided")
      ∨ (yt_download fw url odir fmt em dflt cwd).1 = ("✅ Download complete: ") ++ url
      ∨ ∃ m, (yt_download fw url odir fmt em dflt cwd).1 = ("❌ Error: ") ++ m)
    ∧ run_threaded_run t onDone = Except.ok () := by
  refine ⟨?_, ?_, ?_⟩
  · cases h : convertAttempt w infile target with
    | ok v => left; simp [convert_generic, h]
    | error e => right; exact ⟨e.msg, by simp [convert_generic, h]⟩
  · by_cases hu : pyStrip url = ("")
    · left; simp [yt_download, hu]
    · cases ho : fw.outcome with
      | ok fn => right; left; simp [yt_download, hu, ho]
      | error e => right; right; exact ⟨e.msg, by simp [yt_download, hu, ho]⟩
  · cases t with
    | error e => rfl
    | ok a =>
      cases onDone with
      | none => rfl
      | some f =>
        cases h : f a <;> simp [run_threaded_run, run_threaded_body, h]

/-- A world where Pillow failed to import but pandoc is present and would
succeed, while ffmpeg would also succeed. -/
def noPillowWorld : ConvWorld :=
  { pillowAvail := false
  , pandocAvail := true
  , imageOpen := Except.ok { mode := "RGBA", width := 64, height := 64, pixels := [] }
  , pandocRun := Except.ok ()
  , ffmpegRun := Except.ok () }

/-- C3 counterexample: (i) for an Unknown-category source (`none` mime)
with target `pdf` and the document adapter available, the dispatch chain
selects the document adapter, not the audio/video adapter — so
`resolve(Unknown, anything)` does not always fall back to audio/video; and
(ii) an Image-category source is routed to the raster-image adapter even
when that adapter is not capable (Pillow absent): the conversion fails
with the Pillow error instead of falling through to the available and
succeeding document adapter. -/
theorem dispatch_policy_counterexample :
    resolveAdapter none ("pdf") true = Adapter.pandoc
    ∧ ¬ resolveAdapter none ("pdf") true = Adapter.ffmpeg
    ∧ (convert_generic noPillowWorld ("photo.png") ("dir/photo.pdf") ("pdf") false).1
        = ("❌ Conversion error: Pillow is not installed (pip install Pillow)") := by
  decide

/-- C3 (amended): the dispatch checks the branches in order, but the Image
branch does not consult the raster-image adapter's capability: an
Image-category source is always routed to the raster-image adapter, and
when Pillow is absent the conversion fails with the Pillow error rather
than falling through.  Otherwise a target in the document allow-list with
the document adapter available goes to the document adapter — including
for Unknown-category sources — and every remaining pair (Video/Audio
categories and the universal fallback) goes to the audio/video adapter. -/
theorem dispatch_policy_amended
    (m : Option String) (t : String) (p : Bool) (w : ConvWorld)
    (infile outfile tgt : String) (em : Bool) :
    (mimeStartsWith m ("image") = true → resolveAdapter m t p = Adapter.pillow)
    ∧ (mimeStartsWith (guessMime infile) ("image") = true → w.pillowAvail = false →
        (convert_generic w infile outfile tgt em).1
          = ("❌ Conversion error: Pillow is not installed (pip install Pillow)"))
    ∧ (mimeStartsWith m ("image") = false → docTargets.contains (strToLower t) = true →
        p = true → resolveAdapter m t p = Adapter.pandoc)
    ∧ (mimeStartsWith m ("image") = false →
        (docTargets.contains (strToLower t) = false ∨ p = false) →
        resolveAdapter m t p = Adapter.ffmpeg) := by
  refine ⟨?_, ?_, ?_, ?_⟩
  · intro h
    simp [resolveAdapter, h]
  · intro h hp
    have hres : resolveAdapter (guessMime infile) tgt w.pandocAvail = Adapter.pillow := by
      simp [resolveAdapter, h]
    simp [convert_generic, convertAttempt, hres, convert_image_with_pillow, hp]
  · intro h1 h2 h3
    unfold resolveAdapter
    rw [h1, h2, h3]
    simp
  · intro h1 h2
    have hcond : (docTargets.contains (strToLower t) && p) = false := by
      rcases h2 with h2 | h2
      · have h2m : ¬ strToLower t ∈ docTargets := by simpa using h2
        simp [h2m]
      · simp [h2]
    unfold resolveAdapter
    rw [h1, hcond]
    simp

/-- Witness for the amended C3: image-mime dispatch, the Pillow-missing
failure, and the audio/video branch at concrete inputs. -/
theorem dispatch_policy_amended_witness :
    resolveAdapter (some ("image/png")) ("pdf") true = Adapter.pillow
    ∧ (convert_generic noPillowWorld ("photo.png") ("dir/photo.pdf") ("pdf") true).1
        = ("❌ Conversion error: Pillow is not installed (pip install Pillow)")
    ∧ resolveAdapter (some ("video/mp4")) ("mp3") true = Adapter.ffmpeg := by
  refine ⟨?_, ?_, ?_⟩
  · exact (dispatch_policy_amended (some ("image/png")) ("pdf") true noPillowWorld
      ("photo.png") ("dir/photo.pdf") ("pdf") true).1 (by decide)
  · exact (dispatch_policy_amended (some ("image/png")) ("pdf") true noPillowWorld
      ("photo.png") ("dir/photo.pdf") ("pdf") true).2.1 (by decide) rfl
  · exact (dispatch_policy_amended (some ("video/mp4")) ("mp3") true noPillowWorld
      ("photo.png") ("dir/photo.pdf") ("pdf") true).2.2.2 (by decide) (Or.inl (by decide))

/-- A concrete source image with a partially transparent pixel. -/
def alphaImg : PILImage :=
  { mode := "RGBA", width := 1, height := 1
  , pixels := [{ r := 10, g := 20, b := 30, a := 128 }] }

/-- A world where Pillow is importable and opening the source image
succeeds. -/
def pillowOkWorld : ConvWorld :=
  { pillowAvail := true
  , pandocAvail := false
  , imageOpen := Except.ok alphaImg
  , pandocRun := Except.ok ()
  , ffmpegRun := Except.ok () }

/-- C4 code-bug evidence: with Pillow present and the alpha-carrying
source opening normally, the `jpg` branch composites onto white but then
saves with `format = "jpg".upper() = "JPG"` (line 192), a name absent from
Pillow's save registry: the save raises `KeyError('JPG')` and the job ends
Failed with `❌ Conversion error: 'JPG'` instead of the Succeeded terminal
event the claim requires.  Under the registered spelling `jpeg` the very
same code path succeeds and yields the alpha-free white-composited RGB
artifact, showing the compositing logic is intact and the unregistered
format string is the slip. -/
theorem jpg_conversion_save_bug :
    convert_image_with_pillow true (Except.ok alphaImg) ("jpg")
        = Except.error { msg := "'JPG'" }
    ∧ (convert_generic pillowOkWorld ("photo.png") ("dir/photo.jpg") ("jpg") true).1
        = ("❌ Conversion error: 'JPG'")
    ∧ convert_image_with_pillow true (Except.ok alphaImg) ("jpeg")
        = Except.ok (ImgArtifact.rgb (alphaImg.pixels.map pasteOnWhite))
    ∧ artifactHasTransparency (ImgArtifact.rgb (alphaImg.pixels.map pasteOnWhite)) = false := by
  decide

/-- A 100×100 source image, smaller than the largest requested icon
resolutions. -/
def icoSmallImg : PILImage :=
  { mode := "RGBA", width := 100, height := 100
  , pixels := [{ r := 1, g := 2, b := 3, a := 255 }] }

/-- A 512×512 source image, large enough for every requested icon
resolution. -/
def icoBigImg : PILImage :=
  { mode := "RGBA", width := 512, height := 512
  , pixels := [{ r := 4, g := 5, b := 6, a := 255 }] }

/-- A world where Pillow is importable and opening the large source image
succeeds. -/
def icoBigWorld : ConvWorld :=
  { pillowAvail := true
  , pandocAvail := false
  , imageOpen := Except.ok icoBigImg
  , pandocRun := Except.ok ()
  , ffmpegRun := Except.ok () }

/-- C5 counterexample: converting a 100×100 source to `ico` yields an
artifact with only the four resolutions 16, 32, 48 and 64 — Pillow's ICO
writer drops the requested 128 and 256 px sizes because they exceed the
source dimensions — so the artifact does not contain exactly the six
claimed resolutions for every image. -/
theorem ico_small_source_counterexample :
    convert_image_with_pillow true (Except.ok icoSmallImg) ("ico")
        = Except.ok (ImgArtifact.ico [(16, 16), (32, 32), (48, 48), (64, 64)] icoSmallImg.pixels)
    ∧ ¬ convert_image_with_pillow true (Except.ok icoSmallImg) ("ico")
        = Except.ok (ImgArtifact.ico icoSizes icoSmallImg.pixels) := by
  decide

/-- C5 (amended): converting an image to the `ico` target requests the six
fixed resolutions 16, 32, 48, 64, 128, 256, but Pillow's ICO writer keeps
only the requested sizes that do not exceed the source image's dimensions
(nor 256): the single saved artifact contains exactly the requested
resolutions that fit — all six precisely when the source is at least
256×256 in both dimensions — and the job reports the success terminal
message. -/
theorem ico_requested_resolutions
    (img : PILImage) (w : ConvWorld) (outfile : String) (em : Bool)
    (hp : w.pillowAvail = true) (ho : w.imageOpen = Except.ok img) :
    convert_image_with_pillow true (Except.ok img) ("ico")
        = Except.ok (ImgArtifact.ico (icoFilterSizes img.width img.height icoSizes) img.pixels)
    ∧ (∀ sz ∈ icoFilterSizes img.width img.height icoSizes, sz ∈ icoSizes)
    ∧ (256 ≤ img.width → 256 ≤ img.height →
        icoFilterSizes img.width img.height icoSizes = icoSizes)
    ∧ icoSizes.map Prod.fst = [16, 32, 48, 64, 128, 256]
    ∧ (convert_generic w ("icon.png") outfile ("ico") em).1 = ("✅ Converted to ") ++ ("ico") := by
  refine ⟨rfl, ?_, ?_, by decide, ?_⟩
  · intro sz hsz
    exact (List.mem_filter.mp hsz).1
  · intro hw hh
    apply List.filter_eq_self.mpr
    intro sz hsz
    simp only [icoSizes, List.mem_cons, List.not_mem_nil, or_false] at hsz
    rcases hsz with h | h | h | h | h | h <;> subst h <;>
      simp only [decide_eq_true_eq] <;> refine ⟨by omega, by omega, by omega, by omega⟩
  · have hres : resolveAdapter (guessMime ("icon.png")) ("ico") w.pandocAvail
        = Adapter.pillow := by
      have hm : mimeStartsWith (guessMime ("icon.png")) ("image") = true := by decide
      simp [resolveAdapter, hm]
    have h1 : convert_image_with_pillow true (Except.ok img) ("ico")
        = Except.ok (ImgArtifact.ico (icoFilterSizes img.width img.height icoSizes) img.pixels) :=
      rfl
    simp [convert_generic, convertAttempt, hres, hp, ho, h1]

/-- Witness for the amended C5 at a 512×512 image, where all six
resolutions survive the filter. -/
theorem ico_requested_resolutions_witness :
    convert_image_with_pillow true (Except.ok icoBigImg) ("ico")
        = Except.ok (ImgArtifact.ico (icoFilterSizes icoBigImg.width icoBigImg.height icoSizes)
            icoBigImg.pixels)
    ∧ icoFilterSizes icoBigImg.width icoBigImg.height icoSizes = icoSizes
    ∧ (convert_generic icoBigWorld ("icon.png") ("dir/icon.ico") ("ico") true).1
        = ("✅ Converted to ") ++ ("ico") :=
  ⟨(ico_requested_resolutions icoBigImg icoBigWorld ("dir/icon.ico") true rfl rfl).1,
   (ico_requested_resolutions icoBigImg icoBigWorld ("dir/icon.ico") true rfl rfl).2.2.1
      (by decide) (by decide),
   (ico_requested_resolutions icoBigImg icoBigWorld ("dir/icon.ico") true rfl rfl).2.2.2.2⟩

/-- C6: for every fetch job (whose target format comes from the
Downloader tab's `["mp4","mp3"]` box or the Instagram tab's fixed
`"mp4"`), the yt-dlp options select the profile by target: the audio
target `mp3` requests `bestaudio/best` with an `FFmpegExtractAudio`
postprocessor to mp3 and no merge container, while any other offered
target requests `bestvideo+bestaudio/best` merged into the requested
container. -/
theorem fetch_profile_by_target (outdir fmt : String) (em : Bool)
    (cookie : Option String) (ffp : String) (hf : fmt ∈ uiFetchFormats) :
    (fmt = ("mp3") →
      (build_ydl_opts_for_download outdir fmt em cookie ffp).format = ("bestaudio/best")
      ∧ (build_ydl_opts_for_download outdir fmt em cookie ffp).postprocessors
          = [{ key := "FFmpegExtractAudio", preferredcodec := "mp3", preferredquality := "192" }]
      ∧ (build_ydl_opts_for_download outdir fmt em cookie ffp).mergeOutputFormat = none)
    ∧ (¬ fmt = ("mp3") →
      (build_ydl_opts_for_download outdir fmt em cookie ffp).format = ("bestvideo+bestaudio/best")
      ∧ (build_ydl_opts_for_download outdir fmt em cookie ffp).mergeOutputFormat = some fmt) := by
  have hf2 : fmt = ("mp4") ∨ fmt = ("mp3") := by simpa [uiFetchFormats] using hf
  rcases hf2 with h | h
  · subst h
    exact ⟨fun h' => absurd h' (by decide), fun _ => ⟨rfl, rfl⟩⟩
  · subst h
    exact ⟨fun _ => ⟨rfl, rfl, rfl⟩, fun h' => absurd rfl h'⟩

/-- Witness for C6 at both offered formats. -/
theorem fetch_profile_by_target_witness :
    (build_ydl_opts_for_download ("out") ("mp3") true none ("")).format = ("bestaudio/best")
    ∧ (build_ydl_opts_for_download ("out") ("mp4") true none ("")).mergeOutputFormat
        = some ("mp4") :=
  ⟨((fetch_profile_by_target ("out") ("mp3") true none ("") (by decide)).1 rfl).1,
   ((fetch_profile_by_target ("out") ("mp4") true none ("") (by decide)).2 (by decide)).2⟩

/-- C7: a blank (empty or whitespace-only) URL is rejected synchronously
by `start_youtube_download` with the UI message, before any emitter or
worker thread exists — zero jobs are spawned — and even `yt_download`'s
own guard would return the no-URL message with no events emitted. -/
theorem blank_url_rejected
    (urlText fmtSel outText cookieText dflt cwd : String)
    (fw : FetchWorld) (odir f d c : String)
    (hb : pyStrip urlText = ("")) :
    start_youtube_download urlText fmtSel outText cookieText dflt cwd
        = SubmitOutcome.rejected ("❌ Please paste a URL.")
    ∧ jobsSpawned (start_youtube_download urlText fmtSel outText cookieText dflt cwd) = 0
    ∧ yt_download fw urlText odir f true d c = (("❌ No URL provided"), []) := by
  refine ⟨?_, ?_, ?_⟩
  · simp [start_youtube_download, hb]
  · simp [start_youtube_download, hb, jobsSpawned]
  · simp [yt_download, hb]

/-- Witness for C7 at a whitespace-only URL. -/
theorem blank_url_rejected_witness :
    start_youtube_download ("   ") ("mp4") ("out") ("") ("") ("/cwd")
        = SubmitOutcome.rejected ("❌ Please paste a URL.")
    ∧ yt_download netFailWorld ("   ") ("out") ("mp4") true ("") ("/cwd")
        = (("❌ No URL provided"), []) :=
  ⟨(blank_url_rejected ("   ") ("mp4") ("out") ("") ("") ("/cwd")
      netFailWorld ("out") ("mp4") ("") ("/cwd") (by decide)).1,
   (blank_url_rejected ("   ") ("mp4") ("out") ("") ("") ("/cwd")
      netFailWorld ("out") ("mp4") ("") ("/cwd") (by decide)).2.2⟩

/-- C9: running a job with no observer registered (`emitter = None`)
returns exactly the same result message as running it with an observer,
and emits nothing — event emission is dropped without error and never
affects the outcome, for both `convert_generic` and `yt_download`. -/
theorem headless_same_outcome
    (w : ConvWorld) (infile outfile target : String)
    (fw : FetchWorld) (url odir fmt dflt cwd : String) :
    (convert_generic w infile outfile target false).1
        = (convert_generic w infile outfile target true).1
    ∧ (convert_generic w infile outfile target false).2 = []
    ∧ (yt_download fw url odir fmt false dflt cwd).1
        = (yt_download fw url odir fmt true dflt cwd).1
    ∧ (yt_download fw url odir fmt false dflt cwd).2 = [] := by
  refine ⟨?_, ?_, ?_, ?_⟩
  · cases h : convertAttempt w infile target <;> simp [convert_generic, h]
  · cases h : convertAttempt w infile target <;> simp [convert_generic, h, emitIf]
  · by_cases hu : pyStrip url = ("")
    · simp [yt_download, hu]
    · cases ho : fw.outcome <;> simp [yt_download, hu, ho]
  · by_cases hu : pyStrip url = ("")
    · simp [yt_download, hu]
    · cases ho : fw.outcome <;> simp [yt_download, hu, ho, emitIf]

end MediaToolkit
